import Mathlib

/-!
Shallow embedding of the OperatorOS real-time synchronization client
(`src/static/js/realtime.js`, class `OperatorOSRealTime`).

The JavaScript runtime is single-threaded and timer-driven.  We model a
client instance as an explicit state (`RTState`) holding every instance
field of the class that the verified claims touch, plus explicit
bookkeeping for the event loop: the multiset of live timers (`pending`,
JS `setTimeout`/`setInterval` registrations), and observable traces
(dispatcher deliveries, invoked queued actions, frames sent on the
socket, close codes requested).  Each method of the class becomes a Lean
function on `RTState`; external happenings (socket open/close/message,
timer firings, subscriptions, teardown) become an `Event` acted on by a
total `step` function.
-/

set_option maxRecDepth 4000

namespace RT

/-- Readiness of the underlying WebSocket transport
(`WebSocket.readyState` in the browser). -/
inductive ReadyState
  | connecting
  | opened
  | closing
  | closed
deriving DecidableEq, Repr

/-- The WebSocket object held in `this.websocket`; only its
`readyState` is consulted by the client. -/
structure WS where
  readyState : ReadyState
deriving DecidableEq, Repr

/-- Inbound message payload.  JS payloads are duck-typed objects; this flat
record carries exactly the fields the handlers in `realtime.js` read
(`agent_id`, `old_status`, `new_status`, `task_id`, `level`, `message`,
`pool_name`, `action`, `agent_count`), plus `value`, an opaque stand-in for
any remaining structured content (e.g. metrics numbers). -/
structure Payload where
  agent_id : String := ""
  old_status : String := ""
  new_status : String := ""
  task_id : String := ""
  level : String := ""
  message : String := ""
  pool_name : String := ""
  action : String := ""
  agent_count : Nat := 0
  value : Nat := 0
deriving DecidableEq, Repr

/-- An inbound channel frame `{ "type": ..., "payload": ... }`
(already JSON-parsed, as in `handleWebSocketMessage`). -/
structure Frame where
  ftype : String
  payload : Payload := {}
deriving DecidableEq, Repr

/-- A stored notification record (`storeNotification`): built in
`showNotification` as `{id: Date.now(), message, type, timestamp: new Date()}`. -/
structure Notification where
  nid : Nat := 0
  message : String := ""
  ntype : String := ""
  timestamp : Nat := 0
deriving DecidableEq, Repr

/-- Data handed to a subscriber callback by `emit(event, data)`. -/
inductive EmitData
  | nodata
  | pay (p : Payload)
  | frame (f : Frame)
  | notif (n : Notification)
deriving DecidableEq, Repr

/-- A subscriber callback registered through `on(event, callback)`.
`cid` identifies the function object; `throws` records whether calling it
raises (the dispatcher's behaviour is the only thing that depends on it). -/
structure Callback where
  cid : Nat
  throws : Bool
deriving DecidableEq, Repr

/-- A zero-argument action buffered by `queueUpdate`.  `aid` identifies the
closure; `throws` records whether invoking it raises. -/
structure UpdateAction where
  aid : Nat
  throws : Bool
deriving DecidableEq, Repr

/-- The kind of a live timer registration in the event loop. -/
inductive TimerKind
  | heartbeat
  | flush
  | polling
  | reconnect (delay : ℚ)
  | connTimeout
deriving DecidableEq, Repr

/-- The `this.options` record of the constructor. -/
structure RTOptions where
  reconnectInterval : ℚ
  maxReconnectAttempts : Nat
  heartbeatInterval : ℚ
  updateThrottle : ℚ
deriving DecidableEq, Repr

/-- Constructor defaults: `{reconnectInterval: 5000, maxReconnectAttempts: 10,
heartbeatInterval: 30000, updateThrottle: 1000}`. -/
def defaultOptions : RTOptions :=
  { reconnectInterval := 5000
    maxReconnectAttempts := 10
    heartbeatInterval := 30000
    updateThrottle := 1000 }

/-- One `OperatorOSRealTime` instance plus event-loop bookkeeping.

Instance fields of the class: `options`, `websocket`, `isConnected`,
`reconnectAttempts`, `heartbeatTimer`, `updateQueue`, `updateTimer`,
`listeners`, `pollingInterval` (the `lastHeartbeat` diagnostic timestamp is
not modelled; no claim reads it).  `watchedTasks` models the DOM oracle
behind `isUserWatchingTask`.  Model bookkeeping: `pending` is the list of
live timer registrations `(handle, kind)`; `nextId` the fresh-handle source;
`clock` the value `Date.now()` returns; `stored` the
`localStorage['operatorOS_notifications']` array; `deliveries` the trace of
subscriber invocations `(callback id, event, data)`; `invoked` the trace of
queued-action invocations; `sentFrames` the frames passed to
`websocket.send`; `closeCalls` the codes passed to `websocket.close`;
`caughtErrors` the callback ids whose invocation raised and was caught in
`emit`. -/
structure RTState where
  options : RTOptions
  websocket : Option WS
  isConnected : Bool
  reconnectAttempts : Nat
  heartbeatTimer : Option Nat
  updateQueue : List UpdateAction
  updateTimer : Option Nat
  listeners : List (String × List Callback)
  pollingInterval : Option Nat
  watchedTasks : List String
  pending : List (Nat × TimerKind)
  nextId : Nat
  clock : Nat
  stored : List Notification
  deliveries : List (Nat × String × EmitData)
  invoked : List Nat
  sentFrames : List Frame
  closeCalls : List Nat
  caughtErrors : List Nat
deriving DecidableEq, Repr

/-- `clearTimeout`/`clearInterval`: drop the registration with the given
handle from the event loop. -/
def removeTimer (p : List (Nat × TimerKind)) (id : Nat) : List (Nat × TimerKind) :=
  p.filter (fun t => decide (¬t.1 = id))

/-- `this.listeners[event] || []` lookup used by `emit`. -/
def lookupListeners (ls : List (String × List Callback)) (event : String) :
    List Callback :=
  match ls.find? (fun e => decide (e.1 = event)) with
  | some e => e.2
  | none => []

/-- `emit(event, data)` (lines 578-588): every registered callback for the
event is invoked with `data`; the `try/catch` sits inside the loop body, so a
callback that raises is caught (and logged: recorded in `caughtErrors`) and
iteration continues with the next callback. -/
def emit (s : RTState) (event : String) (d : EmitData) : RTState :=
  let cbs := lookupListeners s.listeners event
  { s with
      deliveries := s.deliveries ++ cbs.map (fun cb => (cb.cid, event, d))
      caughtErrors := s.caughtErrors ++
        (cbs.filter (fun cb => cb.throws)).map (fun cb => cb.cid) }

/-- Helper for `on`: append the callback to the event's list (created if
absent); registration order is preserved and duplicates are kept. -/
def addListener : List (String × List Callback) → String → Callback →
    List (String × List Callback)
  | [], event, cb => [(event, [cb])]
  | (e, cbs) :: rest, event, cb =>
      if e = event then (e, cbs ++ [cb]) :: rest
      else (e, cbs) :: addListener rest event cb

/-- `on(event, callback)` (lines 565-570); named `onEvent` because `on` is
reserved in Lean. -/
def onEvent (s : RTState) (event : String) (cb : Callback) : RTState :=
  { s with listeners := addListener s.listeners event cb }

/-- `off(event, callback)` (lines 572-576): filter the callback out of the
event's list, if the event has one. -/
def off (s : RTState) (event : String) (cb : Callback) : RTState :=
  { s with
      listeners := s.listeners.map
        (fun e => if e.1 = event then (e.1, e.2.filter (fun c => decide (¬c = cb))) else e) }

/-- `storeNotification` (lines 492-505), on the stored array: `unshift` the
new record, then `if (stored.length > 50) stored.splice(50)` — keep only the
first 50 entries. -/
def storeNotification (stored : List Notification) (n : Notification) :
    List Notification :=
  let st := n :: stored
  if st.length > 50 then st.take 50 else st

/-- `storeNotification` on the client state (persists the truncated array;
the DOM counter update has no state effect here). -/
def storeNotificationS (s : RTState) (n : Notification) : RTState :=
  { s with stored := storeNotification s.stored n }

/-- `showNotification(message, type, options)` (lines 466-490): build the
notification record (`id`/`timestamp` from the clock), store it, and emit a
`notification` event.  Dashboard toast calls are DOM-only.  The presentation
`options` (icon, duration) are not modelled. -/
def showNotification (s : RTState) (message : String) (ntype : String) : RTState :=
  let n : Notification :=
    { nid := s.clock, message := message, ntype := ntype, timestamp := s.clock }
  emit (storeNotificationS s n) ("notification") (EmitData.notif n)

/-- `queueUpdate(updateFunction)` (lines 392-400): push the action onto the
buffer; if no flush timer handle is stored, register a new `setTimeout` and
store its handle. -/
def queueUpdate (s : RTState) (a : UpdateAction) : RTState :=
  let s1 := { s with updateQueue := s.updateQueue ++ [a] }
  match s1.updateTimer with
  | some _ => s1
  | none =>
      { s1 with
          pending := s1.pending ++ [(s1.nextId, TimerKind.flush)]
          updateTimer := some s1.nextId
          nextId := s1.nextId + 1 }

/-- The action invocations performed by the `forEach` loop in
`processUpdateQueue`: actions run in buffer order; the `try` wraps the whole
loop, so the first action that raises aborts the remaining iterations. -/
def runQueue : List UpdateAction → List Nat
  | [] => []
  | a :: rest => a.aid :: (if a.throws then [] else runQueue rest)

/-- `processUpdateQueue` (lines 402-415): run the buffered actions (see
`runQueue`); the `finally` block clears the buffer and nulls the timer handle
whether or not an action raised. -/
def processUpdateQueue (s : RTState) : RTState :=
  { s with
      invoked := s.invoked ++ runQueue s.updateQueue
      updateQueue := []
      updateTimer := none }

/-- `startHeartbeat` (lines 167-174): register the heartbeat `setInterval`
and store its handle (an already-stored handle is overwritten, its interval
left running — the code never clears before starting). -/
def startHeartbeat (s : RTState) : RTState :=
  { s with
      pending := s.pending ++ [(s.nextId, TimerKind.heartbeat)]
      heartbeatTimer := some s.nextId
      nextId := s.nextId + 1 }

/-- `stopHeartbeat` (lines 176-181): clear the stored interval, if any. -/
def stopHeartbeat (s : RTState) : RTState :=
  match s.heartbeatTimer with
  | some h => { s with pending := removeTimer s.pending h, heartbeatTimer := none }
  | none => s

/-- `startPollingFallback` (lines 417-434): register the 15s polling
`setInterval` and store its handle.  Note the source does not clear an
already-running polling interval first: a previously stored handle is
overwritten and its interval keeps running.  (The DOM status update has no
state effect.) -/
def startPollingFallback (s : RTState) : RTState :=
  { s with
      pending := s.pending ++ [(s.nextId, TimerKind.polling)]
      pollingInterval := some s.nextId
      nextId := s.nextId + 1 }

/-- `stopPollingFallback` (lines 436-441): clear the stored interval, if
any. -/
def stopPollingFallback (s : RTState) : RTState :=
  match s.pollingInterval with
  | some p => { s with pending := removeTimer s.pending p, pollingInterval := none }
  | none => s

/-- `scheduleReconnect` (lines 152-165): increment the attempt counter, then
register a `setTimeout` after
`reconnectInterval * 1.5 ^ (reconnectAttempts - 1)` (the counter read after
the increment).  The timer handle is discarded — it is stored in no field. -/
def scheduleReconnect (s : RTState) : RTState :=
  let attempts := s.reconnectAttempts + 1
  let delay := s.options.reconnectInterval * (3 / 2 : ℚ) ^ (attempts - 1)
  { s with
      reconnectAttempts := attempts
      pending := s.pending ++ [(s.nextId, TimerKind.reconnect delay)]
      nextId := s.nextId + 1 }

/-- The fresh-socket path of `connect()` (lines 69-105): construct a new
`WebSocket` (readyState CONNECTING) — replacing whatever handle was stored —
and register the 5s connection-timeout `setTimeout`, whose handle is likewise
discarded. -/
def connectFresh (s : RTState) : RTState :=
  { s with
      websocket := some { readyState := ReadyState.connecting }
      pending := s.pending ++ [(s.nextId, TimerKind.connTimeout)]
      nextId := s.nextId + 1 }

/-- `connect()` (lines 64-106): if the socket exists and is OPEN, resolve
immediately without reopening; otherwise open a fresh socket. -/
def connect (s : RTState) : RTState :=
  match s.websocket with
  | some w => if w.readyState = ReadyState.opened then s else connectFresh s
  | none => connectFresh s

/-- `handleWebSocketOpen` (lines 108-117): mark connected, reset the attempt
counter, start the heartbeat, emit `connected`.  (The DOM status indicator
update has no state effect.)  Nothing here touches the polling interval. -/
def handleWebSocketOpen (s : RTState) : RTState :=
  emit (startHeartbeat { s with isConnected := true, reconnectAttempts := 0 })
    ("connected") EmitData.nodata

/-- `handleWebSocketClose` (lines 128-144): mark disconnected, stop the
heartbeat, emit `disconnected`; then reconnect with backoff if the close was
non-clean (code ≠ 1000) and attempts remain, else fall back to polling. -/
def handleWebSocketClose (s : RTState) (code : Nat) : RTState :=
  let s1 := emit (stopHeartbeat { s with isConnected := false })
    ("disconnected") EmitData.nodata
  if code ≠ 1000 ∧ s1.reconnectAttempts < s1.options.maxReconnectAttempts then
    scheduleReconnect s1
  else
    startPollingFallback s1

/-- The closure queued by `handleMetricsUpdate` and `handlePoolScaling`
(`() => window.operatorOSDashboard.update...(payload)`): identified by the
payload's opaque value; the dashboard calls are assumed not to raise. -/
def dashAction (p : Payload) : UpdateAction :=
  { aid := p.value, throws := false }

/-- `handleMetricsUpdate(payload)` (lines 216-225): queue the dashboard
refresh closure, then emit `metrics_update` with the payload. -/
def handleMetricsUpdate (s : RTState) (p : Payload) : RTState :=
  emit (queueUpdate s (dashAction p)) ("metrics_update") (EmitData.pay p)

/-- `handleAgentStatusChange(payload)` (lines 227-249): warn on failure,
congratulate on recovery, emit `agent_status_change`.  (Badge updates are
DOM-only.) -/
def handleAgentStatusChange (s : RTState) (p : Payload) : RTState :=
  let s1 :=
    if p.new_status = "failed" then
      showNotification s ("Agent " ++ p.agent_id ++ " has failed") ("warning")
    else if p.old_status = "failed" ∧ p.new_status = "idle" then
      showNotification s ("Agent " ++ p.agent_id ++ " has recovered") ("success")
    else s
  emit s1 ("agent_status_change") (EmitData.pay p)

/-- `handleTaskStatusChange(payload)` (lines 251-275): notify on completion
or failure when the task is being watched, emit `task_status_change`. -/
def handleTaskStatusChange (s : RTState) (p : Payload) : RTState :=
  let s1 :=
    if p.task_id ∈ s.watchedTasks then
      if p.new_status = "completed" then
        showNotification s ("Task " ++ p.task_id.take 8 ++ " completed successfully")
          ("success")
      else if p.new_status = "failed" then
        showNotification s ("Task " ++ p.task_id.take 8 ++ " failed") ("error")
      else s
    else s
  emit s1 ("task_status_change") (EmitData.pay p)

/-- `handleSystemAlert(payload)` (lines 277-298): map the alert level to a
notification type, notify, emit `system_alert`. -/
def handleSystemAlert (s : RTState) (p : Payload) : RTState :=
  let nty :=
    if p.level = "error" ∨ p.level = "critical" then "error"
    else if p.level = "warning" then "warning"
    else "info"
  emit (showNotification s ("System Alert: " ++ p.message) nty)
    ("system_alert") (EmitData.pay p)

/-- `handlePoolScaling(payload)` (lines 300-317): notify, queue a dashboard
refresh, emit `pool_scaling`. -/
def handlePoolScaling (s : RTState) (p : Payload) : RTState :=
  let s1 := showNotification s
    (p.pool_name ++ " pool " ++ p.action ++ ": now " ++ toString p.agent_count ++ " agents")
    ("info")
  emit (queueUpdate s1 (dashAction p)) ("pool_scaling") (EmitData.pay p)

/-- `processRealTimeUpdate(data)` (lines 183-214): dispatch on `data.type`
(`pong` is consumed silently, unknown types are logged and ignored), then —
for every frame, whatever its type — emit the generic `update` event with the
whole frame. -/
def processRealTimeUpdate (s : RTState) (f : Frame) : RTState :=
  let s1 :=
    if f.ftype = "pong" then s
    else if f.ftype = "metrics_update" then handleMetricsUpdate s f.payload
    else if f.ftype = "agent_status_change" then handleAgentStatusChange s f.payload
    else if f.ftype = "task_status_change" then handleTaskStatusChange s f.payload
    else if f.ftype = "system_alert" then handleSystemAlert s f.payload
    else if f.ftype = "pool_scaling" then handlePoolScaling s f.payload
    else s
  emit s1 ("update") (EmitData.frame f)

/-- `send(data)` (lines 558-562): `if (this.isConnected &&
this.websocket.readyState === WebSocket.OPEN) this.websocket.send(...)`.
`&&` short-circuits, so the socket is dereferenced only when `isConnected`;
dereferencing a null socket would raise a TypeError, modelled as `none`. -/
def send (s : RTState) (f : Frame) : Option RTState :=
  if s.isConnected = true then
    match s.websocket with
    | none => none
    | some w =>
        if w.readyState = ReadyState.opened then
          some { s with sentFrames := s.sentFrames ++ [f] }
        else some s
  else some s

/-- `cleanup()` (lines 590-603): stop heartbeat and polling, request a clean
close (code 1000) on any socket, `clearTimeout` the flush timer (its handle
is not nulled), drop all listeners.  No reconnect or connection-timeout
`setTimeout` can be cancelled here: their handles were never stored. -/
def cleanup (s : RTState) : RTState :=
  let s1 := stopPollingFallback (stopHeartbeat s)
  let s2 :=
    match s1.websocket with
    | some w =>
        { s1 with
            websocket := some { readyState :=
              if w.readyState = ReadyState.closed then ReadyState.closed
              else ReadyState.closing }
            closeCalls := s1.closeCalls ++ [1000] }
    | none => s1
  let s3 :=
    match s2.updateTimer with
    | some t => { s2 with pending := removeTimer s2.pending t }
    | none => s2
  { s3 with listeners := [] }

/-- The outbound heartbeat probe `{"type":"ping"}`. -/
def pingFrame : Frame := { ftype := "ping" }

/-- External happenings driving one client instance: method calls from the
page, socket events from the browser, and timer firings from the event
loop. -/
inductive Event
  | evConnect
  | evOpen
  | evClose (code : Nat)
  | evMessage (f : Frame)
  | evFlushFire (id : Nat)
  | evHeartbeatTick (id : Nat)
  | evPollTick (id : Nat) (ok : Bool) (body : Payload)
  | evReconnectFire (id : Nat)
  | evConnTimeoutFire (id : Nat)
  | evCleanup
  | evOn (event : String) (cb : Callback)
deriving DecidableEq, Repr

/-- One step of the event loop.  Socket events require a socket in the
matching readiness state (and move its `readyState` as the browser does);
timer firings require a live registration of the matching kind — a fired
`setTimeout` is removed, a fired `setInterval` stays registered.  Events
whose guard fails leave the state unchanged. -/
def step (s : RTState) : Event → RTState
  | Event.evConnect => connect s
  | Event.evOpen =>
      match s.websocket with
      | some w =>
          if w.readyState = ReadyState.connecting then
            handleWebSocketOpen { s with websocket := some { readyState := ReadyState.opened } }
          else s
      | none => s
  | Event.evClose code =>
      match s.websocket with
      | some w =>
          if w.readyState ≠ ReadyState.closed then
            handleWebSocketClose { s with websocket := some { readyState := ReadyState.closed } } code
          else s
      | none => s
  | Event.evMessage f =>
      match s.websocket with
      | some w => if w.readyState = ReadyState.opened then processRealTimeUpdate s f else s
      | none => s
  | Event.evFlushFire id =>
      if (id, TimerKind.flush) ∈ s.pending then
        processUpdateQueue { s with pending := removeTimer s.pending id }
      else s
  | Event.evHeartbeatTick id =>
      if (id, TimerKind.heartbeat) ∈ s.pending then
        if s.isConnected = true ∧ s.websocket = some { readyState := ReadyState.opened } then
          { s with sentFrames := s.sentFrames ++ [pingFrame] }
        else s
      else s
  | Event.evPollTick id ok body =>
      if (id, TimerKind.polling) ∈ s.pending then
        if ok then handleMetricsUpdate s body else s
      else s
  | Event.evReconnectFire id =>
      match s.pending.find? (fun t => decide (t.1 = id)) with
      | some t =>
          match t.2 with
          | TimerKind.reconnect _ =>
              let s1 := { s with pending := removeTimer s.pending id }
              if s1.isConnected = true then s1 else connect s1
          | _ => s
      | none => s
  | Event.evConnTimeoutFire id =>
      match s.pending.find? (fun t => decide (t.1 = id)) with
      | some t =>
          match t.2 with
          | TimerKind.connTimeout =>
              let s1 := { s with pending := removeTimer s.pending id }
              match s1.websocket with
              | some w =>
                  if w.readyState ≠ ReadyState.opened then
                    { s1 with
                        websocket := some { readyState := ReadyState.closing }
                        closeCalls := s1.closeCalls ++ [1000] }
                  else s1
              | none => s1
          | _ => s
      | none => s
  | Event.evCleanup => cleanup s
  | Event.evOn event cb => onEvent s event cb

/-- A freshly constructed instance before `init()` runs. -/
def freshState (opts : RTOptions) : RTState :=
  { options := opts, websocket := none, isConnected := false, reconnectAttempts := 0
    heartbeatTimer := none, updateQueue := [], updateTimer := none, listeners := []
    pollingInterval := none, watchedTasks := [], pending := [], nextId := 0, clock := 0
    stored := [], deliveries := [], invoked := [], sentFrames := [], closeCalls := []
    caughtErrors := [] }

/-- The state after the constructor: `init()` wires the DOM listeners (no
instance-state effect) and unconditionally calls `startPollingFallback`. -/
def initialState (opts : RTOptions) : RTState :=
  startPollingFallback (freshState opts)

/-- Run a sequence of events. -/
def run (s0 : RTState) (events : List Event) : RTState :=
  events.foldl step s0

/-- States a client instance can actually be in: the constructor's state,
closed under event steps. -/
inductive Reachable : RTState → Prop
  | init (opts : RTOptions) : Reachable (initialState opts)
  | next {s : RTState} (e : Event) : Reachable s → Reachable (step s e)

/-- Handles of the pending flush (`setTimeout`) registrations. -/
def flushTimers (p : List (Nat × TimerKind)) : List Nat :=
  (p.filter (fun t => decide (t.2 = TimerKind.flush))).map (fun t => t.1)

/-- Whether a timer kind is a backoff-reconnect `setTimeout`. -/
def reconnectKind : TimerKind → Bool
  | TimerKind.reconnect _ => true
  | _ => false

/-- Number of pending backoff-reconnect registrations. -/
def reconnectCount (p : List (Nat × TimerKind)) : Nat :=
  (p.filter (fun t => reconnectKind t.2)).length

/-- Whether a backoff-reconnect registration with the given handle is
pending. -/
def reconnectAt (p : List (Nat × TimerKind)) (id : Nat) : Bool :=
  p.any (fun t => decide (t.1 = id) && reconnectKind t.2)

/-- Number of pending polling (`setInterval`) registrations. -/
def pollingCount (p : List (Nat × TimerKind)) : Nat :=
  (p.filter (fun t => decide (t.2 = TimerKind.polling))).length

/-- Dispatcher deliveries for one event type, in delivery order. -/
def deliveriesTo (s : RTState) (event : String) : List (Nat × String × EmitData) :=
  s.deliveries.filter (fun d => decide (d.2.1 = event))

/-- Record a whole sequence of notifications, oldest first. -/
def recordAll (st : List Notification) (ns : List Notification) : List Notification :=
  List.foldl storeNotification st ns

/-- A push metrics frame used by the concrete traces. -/
def metricsFrame : Frame := { ftype := "metrics_update", payload := { value := 3 } }

/-- Open a channel on a freshly initialised client: `connect()` succeeds and
the browser fires the socket's open event. -/
def c1trace : List Event := [Event.evConnect, Event.evOpen]

/-- Reach a state in which a backoff reconnect timer, the heartbeat timer
and a coalescing-flush timer are pending at once: first connection opens,
drops non-cleanly (scheduling a backoff retry), a second `connect()` opens
before the retry fires, and a metrics frame arrives (scheduling a flush). -/
def c2trace : List Event :=
  [Event.evConnect, Event.evOpen, Event.evClose 1006, Event.evConnect, Event.evOpen,
   Event.evMessage metricsFrame]

/-- One failed reconnect attempt: the pending backoff timer with the given
handle fires (calling `connect()`), and the fresh socket closes
non-cleanly. -/
def failCycle (id : Nat) : List Event := [Event.evReconnectFire id, Event.evClose 1006]

/-- Ten consecutive failed connection attempts from a fresh client: the
initial `connect()` fails, then the nine scheduled retries fail in turn
(the backoff timers get handles 2, 4, ..., 18). -/
def c7trace10 : List Event :=
  [Event.evConnect, Event.evClose 1006] ++ failCycle 2 ++ failCycle 4 ++ failCycle 6 ++
    failCycle 8 ++ failCycle 10 ++ failCycle 12 ++ failCycle 14 ++ failCycle 16 ++ failCycle 18

/-- Eleven consecutive failed connection attempts: the retry scheduled on
the tenth failure (handle 20) fires and fails as well. -/
def c7trace11 : List Event := c7trace10 ++ failCycle 20

/-- A client with one subscriber to the generic `update` event and an open
channel (the polling interval from `init()` is still running, handle 0). -/
def c4state : RTState :=
  run (initialState defaultOptions)
    [Event.evOn ("update") { cid := 7, throws := false }, Event.evConnect, Event.evOpen]

/-- A client with three subscribers to event `x`, registered in the order
1, 2, 3, where subscriber 2 raises when invoked. -/
def c8state : RTState :=
  run (initialState defaultOptions)
    [Event.evOn ("x") { cid := 1, throws := false },
     Event.evOn ("x") { cid := 2, throws := true },
     Event.evOn ("x") { cid := 3, throws := false }]

/-- What holds after enqueuing the actions `acts` into an idle coalescing
queue of client `s` within one throttle window: the buffer holds exactly
`acts` in order; exactly one flush timer is pending (and was pending after
every enqueue prefix), and its single firing invokes exactly the `acts`
once each, in order, emptying the buffer and releasing the timer so that no
flush registration remains. -/
def C3Post (s : RTState) (acts : List UpdateAction) : Prop :=
  (List.foldl queueUpdate s acts).updateQueue = acts ∧
  (∀ n : Nat,
    (flushTimers (List.foldl queueUpdate s (acts.take n)).pending).length ≤ 1) ∧
  (∃ t : Nat,
    (List.foldl queueUpdate s acts).updateTimer = some t ∧
    flushTimers (List.foldl queueUpdate s acts).pending = [t] ∧
    (step (List.foldl queueUpdate s acts) (Event.evFlushFire t)).invoked =
      s.invoked ++ acts.map UpdateAction.aid ∧
    (step (List.foldl queueUpdate s acts) (Event.evFlushFire t)).updateQueue = [] ∧
    (step (List.foldl queueUpdate s acts) (Event.evFlushFire t)).updateTimer = none ∧
    flushTimers (step (List.foldl queueUpdate s acts) (Event.evFlushFire t)).pending = [])

/-- What holds of the notification store: one `storeNotification` call never
leaves more than 50 entries; recording a 51-notification sequence leaves
exactly the newest 50, newest first (the tail entry — the oldest — was
evicted), and when the 51 are pairwise distinct, the oldest is absent. -/
def C5Post (st ns : List Notification) : Prop :=
  (∀ st2 n, (storeNotification st2 n).length ≤ 50) ∧
  recordAll st ns = ns.reverse.take 50 ∧
  (ns.Nodup → ∀ n, ns.head? = some n → n ∉ recordAll st ns)

/-- 51 pairwise-distinct notifications, oldest first. -/
def ns51 : List Notification :=
  (List.range 51).map (fun i => { nid := i, timestamp := i })

/-- A client whose update buffer holds actions 1, 2, 3 in order, where
action 2 raises when invoked. -/
def c10state : RTState :=
  { initialState defaultOptions with
      updateQueue :=
        [{ aid := 1, throws := false }, { aid := 2, throws := true },
         { aid := 3, throws := false }] }

/-- Two non-raising actions enqueued within one throttle window. -/
def c3acts : List UpdateAction :=
  [{ aid := 1, throws := false }, { aid := 2, throws := false }]

/-- What `cleanup` actually guarantees for a client `s` holding a pending
backoff-reconnect registration `id`: the reconnect timer is still pending
after teardown, while every registration whose handle is stored in
`heartbeatTimer`, `updateTimer` or `pollingInterval` is cancelled, and any
existing socket is closed with the clean-close code 1000. -/
def C2Post (s : RTState) (id : Nat) : Prop :=
  reconnectAt (cleanup s).pending id = true ∧
  (∀ hid k, s.heartbeatTimer = some hid → (hid, k) ∉ (cleanup s).pending) ∧
  (∀ tid k, s.updateTimer = some tid → (tid, k) ∉ (cleanup s).pending) ∧
  (∀ pid k, s.pollingInterval = some pid → (pid, k) ∉ (cleanup s).pending) ∧
  (∀ w, s.websocket = some w → (1000 : Nat) ∈ (cleanup s).closeCalls)

/-- What a non-clean close does once the attempt counter has reached the
configured maximum: no new backoff-reconnect timer is registered, the counter
stays put, and the polling fallback is (re)started; moreover, on the concrete
eleven-failure trace no backoff timer remains pending at all. -/
def C7Post (s : RTState) (code : Nat) : Prop :=
  reconnectCount (handleWebSocketClose s code).pending = reconnectCount s.pending ∧
  (handleWebSocketClose s code).reconnectAttempts = s.reconnectAttempts ∧
  (handleWebSocketClose s code).pollingInterval = some s.nextId ∧
  reconnectCount (run (initialState defaultOptions) c7trace11).pending = 0 ∧
  (run (initialState defaultOptions) c7trace11).reconnectAttempts =
    defaultOptions.maxReconnectAttempts

/-- What one `emit` call guarantees when the registered callbacks for the
event are `pre ++ c :: post` and `c` raises: every callback — including all
of `post`, registered after the raising `c` — is invoked with the payload in
this same publish call, and `c`'s error is caught (logged). -/
def C8Post (s : RTState) (event : String) (d : EmitData)
    (pre post : List Callback) (c : Callback) : Prop :=
  (emit s event d).deliveries =
    s.deliveries ++ (pre ++ c :: post).map (fun cb => (cb.cid, event, d)) ∧
  c.cid ∈ (emit s event d).caughtErrors ∧
  ∀ cb ∈ post, (cb.cid, event, d) ∈ (emit s event d).deliveries

/-- What `send` guarantees: it returns (never raises), transmits exactly when
the client is connected with an open channel, and otherwise is a silent no-op
leaving the state untouched. -/
def C9Post (s : RTState) (f : Frame) : Prop :=
  ∃ s2, send s f = some s2 ∧
    ((s.isConnected = true ∧ s.websocket = some { readyState := ReadyState.opened } ∧
        s2 = { s with sentFrames := s.sentFrames ++ [f] }) ∨
     (¬(s.isConnected = true ∧ s.websocket = some { readyState := ReadyState.opened }) ∧
        s2 = s))

end RT

namespace RT

/-- Claim C6 (confirmed): `scheduleReconnect` increments the attempt counter,
and the retry it registers is delayed by
`reconnectInterval * 1.5 ^ (attempt - 1)` where `attempt` is the counter
value after the increment. -/
theorem C6_backoff_delay (s : RTState) :
    (scheduleReconnect s).reconnectAttempts = s.reconnectAttempts + 1 ∧
    (scheduleReconnect s).pending =
      s.pending ++ [(s.nextId,
        TimerKind.reconnect (s.options.reconnectInterval *
          (3 / 2 : ℚ) ^ ((scheduleReconnect s).reconnectAttempts - 1)))] :=
  ⟨rfl, rfl⟩

/-- Claim C1 (corrected), counterexample: on the trace `connect, open` from
the constructor's state, the channel is open and the client connected while
the polling interval started by `init()` (handle 0) is still registered —
the open channel and an active polling timer are live at the same instant,
so establishing the push connection did not deactivate polling. -/
theorem C1_counterexample :
    ((run (initialState defaultOptions) c1trace).websocket =
      some { readyState := ReadyState.opened }) ∧
    ((run (initialState defaultOptions) c1trace).isConnected = true) ∧
    ((run (initialState defaultOptions) c1trace).pollingInterval = some 0) ∧
    pollingCount (run (initialState defaultOptions) c1trace).pending = 1 := by
  decide

/-- Claim C1 (corrected), amended claim: establishing a push connection does
not deactivate polling — `handleWebSocketOpen` leaves both the stored
polling-interval handle and the set of pending polling registrations exactly
as they were (polling stops only through `stopPollingFallback`, which only
`cleanup` calls). -/
theorem C1_amended_open_preserves_polling (s : RTState) :
    (handleWebSocketOpen s).pollingInterval = s.pollingInterval ∧
    pollingCount (handleWebSocketOpen s).pending = pollingCount s.pending := by
  refine ⟨rfl, ?_⟩
  show pollingCount (s.pending ++ [(s.nextId, TimerKind.heartbeat)]) = pollingCount s.pending
  simp [pollingCount, List.filter_append]

/-- Claim C7 (corrected), counterexample: after exactly
`maxReconnectAttempts = 10` consecutive failed connection attempts from a
fresh client, the attempt counter is at the maximum but a backoff-reconnect
timer (scheduled by the tenth failure) is still pending, and its firing
issues a further connection attempt — the client is not yet in a pure
polling regime after N failures. -/
theorem C7_counterexample :
    ((run (initialState defaultOptions) c7trace10).reconnectAttempts =
      defaultOptions.maxReconnectAttempts) ∧
    reconnectCount (run (initialState defaultOptions) c7trace10).pending = 1 ∧
    ((step (run (initialState defaultOptions) c7trace10)
        (Event.evReconnectFire 20)).websocket =
      some { readyState := ReadyState.connecting }) := by
  decide

/-- Claim C2 (corrected), counterexample: on the concrete trace `c2trace`
the heartbeat timer (handle 5), the coalescing-flush timer (handle 6) and a
backoff-reconnect timer (handle 3) are all pending; invoking `cleanup`
cancels heartbeat, polling and flush but the backoff timer survives teardown
(its handle was never stored), and when it later fires it opens a fresh
socket — a scheduled callback of the client does real work after teardown
completed. -/
theorem C2_counterexample :
    ((run (initialState defaultOptions) c2trace).heartbeatTimer = some 5) ∧
    ((5, TimerKind.heartbeat) ∈ (run (initialState defaultOptions) c2trace).pending) ∧
    ((run (initialState defaultOptions) c2trace).updateTimer = some 6) ∧
    ((6, TimerKind.flush) ∈ (run (initialState defaultOptions) c2trace).pending) ∧
    reconnectAt (run (initialState defaultOptions) c2trace).pending 3 = true ∧
    ((5, TimerKind.heartbeat) ∉ (cleanup (run (initialState defaultOptions) c2trace)).pending) ∧
    ((6, TimerKind.flush) ∉ (cleanup (run (initialState defaultOptions) c2trace)).pending) ∧
    ((0, TimerKind.polling) ∉ (cleanup (run (initialState defaultOptions) c2trace)).pending) ∧
    reconnectAt (cleanup (run (initialState defaultOptions) c2trace)).pending 3 = true ∧
    ((cleanup (run (initialState defaultOptions) c2trace)).closeCalls = [1000]) ∧
    ((step (step (cleanup (run (initialState defaultOptions) c2trace))
          (Event.evClose 1000)) (Event.evReconnectFire 3)).websocket =
      some { readyState := ReadyState.connecting }) := by
  decide

/-- The `forEach` loop of `processUpdateQueue` on a buffer whose first
raising action is `a`: the actions before `a` run, `a` runs and raises, and
the actions after `a` are skipped. -/
theorem runQueue_break (pre post : List UpdateAction) (a : UpdateAction)
    (hpre : ∀ b ∈ pre, b.throws = false) (ha : a.throws = true) :
    runQueue (pre ++ a :: post) = pre.map UpdateAction.aid ++ [a.aid] := by
  induction pre with
  | nil => simp [runQueue, ha]
  | cons b tl ih =>
      have hb : b.throws = false := hpre b (by simp)
      simp [runQueue, hb, ih (fun c hc => hpre c (by simp [hc]))]

/-- Every buffered action runs when none raises. -/
theorem runQueue_all (l : List UpdateAction) (h : ∀ a ∈ l, a.throws = false) :
    runQueue l = l.map UpdateAction.aid := by
  induction l with
  | nil => rfl
  | cons a tl ih =>
      have ha : a.throws = false := h a (by simp)
      simp [runQueue, ha, ih (fun c hc => h c (by simp [hc]))]

/-- Claim C10 (confirmed): if a buffered action raises during a flush, the
actions enqueued after it are not invoked in that flush, yet the `finally`
block still empties the buffer and releases the timer handle — so the
skipped actions can never be invoked later either. -/
theorem C10_flush_abort (s : RTState) (pre post : List UpdateAction)
    (a : UpdateAction) (hq : s.updateQueue = pre ++ a :: post)
    (hpre : ∀ b ∈ pre, b.throws = false) (ha : a.throws = true) :
    processUpdateQueue s =
      { s with
          invoked := s.invoked ++ (pre.map UpdateAction.aid ++ [a.aid])
          updateQueue := []
          updateTimer := none } := by
  show { s with
      invoked := s.invoked ++ runQueue s.updateQueue
      updateQueue := []
      updateTimer := none } = _
  rw [hq, runQueue_break pre post a hpre ha]

/-- Claim C10, witness: flushing the buffer `[1, 2!, 3]` (action 2 raises)
invokes exactly 1 then 2, skips 3, empties the buffer and releases the
timer. -/
theorem C10_witness :
    (c10state.updateQueue =
      [{ aid := 1, throws := false }] ++
        ({ aid := 2, throws := true } : UpdateAction) :: [{ aid := 3, throws := false }]) ∧
    processUpdateQueue c10state =
      { c10state with
          invoked := c10state.invoked ++
            ([({ aid := 1, throws := false } : UpdateAction)].map UpdateAction.aid ++
              [({ aid := 2, throws := true } : UpdateAction).aid])
          updateQueue := []
          updateTimer := none } :=
  ⟨rfl, C10_flush_abort c10state [{ aid := 1, throws := false }]
    [{ aid := 3, throws := false }] { aid := 2, throws := true } rfl (by decide) rfl⟩

/-- Claim C8 (confirmed): when the callbacks registered for an event are
`pre ++ c :: post` and `c` raises, `emit` still invokes every callback with
the payload in the same publish call — in particular all of `post`,
registered after the raising one — and `c`'s error is caught. -/
theorem C8_emit_isolation (s : RTState) (event : String) (d : EmitData)
    (pre post : List Callback) (c : Callback)
    (h : lookupListeners s.listeners event = pre ++ c :: post)
    (hc : c.throws = true) :
    C8Post s event d pre post c := by
  refine ⟨?_, ?_, ?_⟩
  · show s.deliveries ++
        (lookupListeners s.listeners event).map (fun cb => (cb.cid, event, d)) = _
    rw [h]
  · show c.cid ∈ s.caughtErrors ++
        ((lookupListeners s.listeners event).filter (fun cb => cb.throws)).map
          (fun cb => cb.cid)
    rw [h]
    refine List.mem_append_right _ ?_
    exact List.mem_map.mpr ⟨c, List.mem_filter.mpr ⟨by simp, by simp [hc]⟩, rfl⟩
  · intro cb hcb
    show (cb.cid, event, d) ∈ s.deliveries ++
        (lookupListeners s.listeners event).map (fun cb => (cb.cid, event, d))
    rw [h]
    exact List.mem_append_right _ (List.mem_map.mpr ⟨cb, by simp [hcb], rfl⟩)

/-- Claim C8, witness: with subscribers 1, 2, 3 for event `x` where 2
raises, publishing delivers to all three in order and records 2's caught
error. -/
theorem C8_witness :
    (lookupListeners c8state.listeners ("x") =
      [{ cid := 1, throws := false }] ++
        ({ cid := 2, throws := true } : Callback) :: [{ cid := 3, throws := false }]) ∧
    C8Post c8state ("x") EmitData.nodata [{ cid := 1, throws := false }]
      [{ cid := 3, throws := false }] { cid := 2, throws := true } :=
  ⟨by decide, C8_emit_isolation c8state ("x") EmitData.nodata _ _ _ (by decide) rfl⟩

/-- Claim C4 (corrected), counterexample: with one subscriber registered for
the generic `update` event, a push-delivered metrics frame produces a
delivery to that subscriber, while a successful polling pull with the same
payload produces none — the two origins are distinguishable to this
subscriber. -/
theorem C4_counterexample :
    ((step c4state (Event.evMessage metricsFrame)).deliveries =
      [(7, "update", EmitData.frame metricsFrame)]) ∧
    ((step c4state (Event.evPollTick 0 true { value := 3 })).deliveries = []) := by
  decide

/-- Claim C4 (corrected), amended claim: a successful polling pull runs the
same `handleMetricsUpdate` as the push path, so subscribers of
`metrics_update` observe identical deliveries with the same payload from
either origin; but the push path additionally wraps the handler in
`processRealTimeUpdate`, which then emits the generic `update` event with
the whole frame — a delivery the polling path never produces, making the
origins distinguishable to `update` subscribers only. -/
theorem C4_amended_poll_push (s : RTState) (body : Payload) :
    (processRealTimeUpdate s { ftype := "metrics_update", payload := body } =
      emit (handleMetricsUpdate s body) ("update")
        (EmitData.frame { ftype := "metrics_update", payload := body })) ∧
    (deliveriesTo (processRealTimeUpdate s { ftype := "metrics_update", payload := body })
        ("metrics_update") =
      deliveriesTo (handleMetricsUpdate s body) ("metrics_update")) := by
  have h1 : processRealTimeUpdate s { ftype := "metrics_update", payload := body } =
      emit (handleMetricsUpdate s body) ("update")
        (EmitData.frame { ftype := "metrics_update", payload := body }) := by
    simp [processRealTimeUpdate]
  refine ⟨h1, ?_⟩
  rw [h1]
  show ((handleMetricsUpdate s body).deliveries ++
      (lookupListeners (handleMetricsUpdate s body).listeners ("update")).map
        (fun cb => (cb.cid, "update",
          EmitData.frame { ftype := "metrics_update", payload := body }))).filter
      (fun d => decide (d.2.1 = "metrics_update")) =
    deliveriesTo (handleMetricsUpdate s body) ("metrics_update")
  rw [List.filter_append]
  have h2 : ((lookupListeners (handleMetricsUpdate s body).listeners ("update")).map
      (fun cb => (cb.cid, "update",
        EmitData.frame { ftype := "metrics_update", payload := body }))).filter
      (fun d => decide (d.2.1 = "metrics_update")) = [] := by
    rw [List.filter_eq_nil_iff]
    intro x hx
    obtain ⟨cb, _, rfl⟩ := List.mem_map.mp hx
    simp
  rw [h2, List.append_nil]
  rfl

/-- An enqueue while a flush timer is already scheduled only appends to the
buffer. -/
theorem queueUpdate_some (s : RTState) (a : UpdateAction) (t : Nat)
    (h : s.updateTimer = some t) :
    queueUpdate s a = { s with updateQueue := s.updateQueue ++ [a] } := by
  simp [queueUpdate, h]

/-- An enqueue with no flush timer scheduled appends to the buffer and
registers one fresh flush `setTimeout`, storing its handle. -/
theorem queueUpdate_none (s : RTState) (a : UpdateAction)
    (h : s.updateTimer = none) :
    queueUpdate s a =
      { s with
          updateQueue := s.updateQueue ++ [a]
          pending := s.pending ++ [(s.nextId, TimerKind.flush)]
          updateTimer := some s.nextId
          nextId := s.nextId + 1 } := by
  simp [queueUpdate, h]

/-- While a flush timer is scheduled, any number of further enqueues only
accumulate the buffer: no second timer is ever registered. -/
theorem foldl_queueUpdate_some (l : List UpdateAction) (s : RTState) (t : Nat)
    (h : s.updateTimer = some t) :
    List.foldl queueUpdate s l = { s with updateQueue := s.updateQueue ++ l } := by
  induction l generalizing s with
  | nil => simp
  | cons a l ih =>
      rw [List.foldl_cons, queueUpdate_some s a t h,
        ih { s with updateQueue := s.updateQueue ++ [a] } h]
      simp

/-- Enqueuing `a :: l` into an idle queue: the first enqueue registers the
single flush timer (handle `s.nextId`), the rest only accumulate. -/
theorem foldl_queueUpdate_fresh (s : RTState) (a : UpdateAction)
    (l : List UpdateAction) (h : s.updateTimer = none) :
    List.foldl queueUpdate s (a :: l) =
      { s with
          updateQueue := s.updateQueue ++ a :: l
          pending := s.pending ++ [(s.nextId, TimerKind.flush)]
          updateTimer := some s.nextId
          nextId := s.nextId + 1 } := by
  rw [List.foldl_cons, queueUpdate_none s a h,
    foldl_queueUpdate_some l _ s.nextId rfl]
  simp

/-- `flushTimers` distributes over appended registrations. -/
theorem flushTimers_append (p q : List (Nat × TimerKind)) :
    flushTimers (p ++ q) = flushTimers p ++ flushTimers q := by
  simp [flushTimers, List.filter_append]

/-- A fresh flush registration contributes its handle. -/
theorem flushTimers_flush_singleton (i : Nat) :
    flushTimers [(i, TimerKind.flush)] = [i] := by
  simp [flushTimers]

/-- Clearing a handle removes exactly the flush registrations with that
handle. -/
theorem flushTimers_removeTimer (p : List (Nat × TimerKind)) (i : Nat) :
    flushTimers (removeTimer p i) =
      (flushTimers p).filter (fun x => decide (¬x = i)) := by
  induction p with
  | nil => rfl
  | cons hd tl ih =>
      obtain ⟨a, k⟩ := hd
      by_cases h1 : a = i <;> by_cases h2 : k = TimerKind.flush <;>
        simp [flushTimers, removeTimer, List.filter_cons, h1, h2] <;>
        simpa [flushTimers, removeTimer] using ih

/-- Claim C3 (confirmed): enqueuing `acts` (all non-raising, `acts ≠ []`)
into an idle coalescing queue within one throttle window schedules exactly
one flush timer (never two pending at any intermediate point), and that
single flush invokes every buffered action once, in enqueue order, emptying
the buffer and releasing the timer. -/
theorem C3_coalescing (s : RTState) (acts : List UpdateAction)
    (h0 : s.updateQueue = []) (h1 : s.updateTimer = none)
    (h2 : flushTimers s.pending = []) (hne : acts ≠ [])
    (hnt : ∀ a ∈ acts, a.throws = false) :
    C3Post s acts := by
  obtain ⟨a, l, rfl⟩ : ∃ a l, acts = a :: l := by
    cases acts with
    | nil => exact absurd rfl hne
    | cons a l => exact ⟨a, l, rfl⟩
  have hfold := foldl_queueUpdate_fresh s a l h1
  have hflush :
      flushTimers (s.pending ++ [(s.nextId, TimerKind.flush)]) = [s.nextId] := by
    rw [flushTimers_append, h2, flushTimers_flush_singleton]
    rfl
  have hmem : (s.nextId, TimerKind.flush) ∈ s.pending ++ [(s.nextId, TimerKind.flush)] :=
    List.mem_append_right _ (List.mem_singleton.mpr rfl)
  refine ⟨by rw [hfold]; simp [h0], ?_, s.nextId, by rw [hfold], by rw [hfold]; exact hflush,
    ?_, ?_, ?_, ?_⟩
  · intro n
    cases n with
    | zero =>
        simp only [List.take_zero, List.foldl_nil]
        rw [h2]
        exact Nat.zero_le 1
    | succ m =>
        rw [List.take_succ_cons, foldl_queueUpdate_fresh s a (l.take m) h1]
        rw [show ({ s with
            updateQueue := s.updateQueue ++ a :: l.take m
            pending := s.pending ++ [(s.nextId, TimerKind.flush)]
            updateTimer := some s.nextId
            nextId := s.nextId + 1 } : RTState).pending =
          s.pending ++ [(s.nextId, TimerKind.flush)] from rfl, hflush]
        exact Nat.le_refl 1
  · rw [hfold]
    show (step _ (Event.evFlushFire s.nextId)).invoked = _
    rw [step]
    rw [if_pos hmem]
    show ({ s with
        updateQueue := s.updateQueue ++ a :: l
        pending := removeTimer (s.pending ++ [(s.nextId, TimerKind.flush)]) s.nextId
        updateTimer := some s.nextId
        nextId := s.nextId + 1 } : RTState).invoked ++
      runQueue (s.updateQueue ++ a :: l) = _
    rw [show ({ s with
        updateQueue := s.updateQueue ++ a :: l
        pending := removeTimer (s.pending ++ [(s.nextId, TimerKind.flush)]) s.nextId
        updateTimer := some s.nextId
        nextId := s.nextId + 1 } : RTState).invoked = s.invoked from rfl]
    rw [h0, List.nil_append, runQueue_all _ hnt]
  · rw [hfold, step, if_pos hmem]
    rfl
  · rw [hfold, step, if_pos hmem]
    rfl
  · rw [hfold, step, if_pos hmem]
    show flushTimers (removeTimer (s.pending ++ [(s.nextId, TimerKind.flush)]) s.nextId) = []
    rw [flushTimers_removeTimer, hflush]
    simp

/-- Claim C3, witness: two non-raising actions enqueued into a freshly
initialised client produce one flush timer whose single firing invokes both
actions in order. -/
theorem C3_witness :
    ((initialState defaultOptions).updateQueue = []) ∧
    ((initialState defaultOptions).updateTimer = none) ∧
    (flushTimers (initialState defaultOptions).pending = []) ∧
    (c3acts ≠ []) ∧
    (∀ a ∈ c3acts, a.throws = false) ∧
    C3Post (initialState defaultOptions) c3acts :=
  ⟨rfl, rfl, by decide, by decide, by decide,
    C3_coalescing (initialState defaultOptions) c3acts rfl rfl (by decide) (by decide)
      (by decide)⟩

/-- One `storeNotification` call is `unshift` followed by truncation to the
first 50 entries. -/
theorem storeNotification_eq_take (st : List Notification) (n : Notification) :
    storeNotification st n = (n :: st).take 50 := by
  unfold storeNotification
  by_cases h : (n :: st).length > 50
  · simp [h]
  · simp only [h, if_false]
    exact (List.take_of_length_le (Nat.le_of_not_lt h)).symm

/-- Truncating the second operand of an append before truncating the whole
append changes nothing. -/
theorem take_append_take (a b : List Notification) (k : Nat) :
    (a ++ b.take k).take k = (a ++ b).take k := by
  rw [List.take_append_eq_append_take, List.take_append_eq_append_take,
    List.take_take, Nat.min_eq_left (Nat.sub_le k a.length)]

/-- Recording a non-empty sequence of notifications (oldest first) leaves
the reverse of the sequence prepended to the prior store, truncated to 50. -/
theorem recordAll_eq_take (ns : List Notification) :
    ∀ st, ns ≠ [] → recordAll st ns = (ns.reverse ++ st).take 50 := by
  induction ns with
  | nil => intro st h; exact absurd rfl h
  | cons n tl ih =>
      intro st _
      cases tl with
      | nil => simp [recordAll, storeNotification_eq_take]
      | cons m tl2 =>
          have hstep : recordAll st (n :: m :: tl2) =
              recordAll (storeNotification st n) (m :: tl2) := rfl
          rw [hstep, ih (storeNotification st n) (by simp),
            storeNotification_eq_take, take_append_take]
          simp [List.append_assoc]

/-- Claim C5 (confirmed): the stored notification sequence never exceeds 50
entries; recording 51 notifications (onto any prior store) leaves exactly
the newest 50, newest first — eviction dropped the tail — and, the 51 being
distinct, the oldest is absent. -/
theorem C5_store_bound (st ns : List Notification) (h : ns.length = 51) :
    C5Post st ns := by
  have hne : ns ≠ [] := by
    intro e
    rw [e] at h
    simp at h
  refine ⟨?_, ?_, ?_⟩
  · intro st2 n
    unfold storeNotification
    by_cases hl : (n :: st2).length > 50
    · rw [if_pos hl, List.length_take]
      exact Nat.min_le_left _ _
    · simp only [hl, if_false]
      omega
  · rw [recordAll_eq_take ns st hne, List.take_append_eq_append_take]
    have hlen : ns.reverse.length = 51 := by simp [h]
    rw [hlen]
    simp
  · intro hnd n hhead hmem
    obtain ⟨tl, rfl⟩ : ∃ tl, ns = n :: tl := by
      cases ns with
      | nil => simp at hhead
      | cons a tl =>
          simp only [List.head?_cons, Option.some.injEq] at hhead
          exact ⟨tl, by rw [hhead]⟩
    have htl : tl.length = 50 := by
      simp only [List.length_cons] at h
      omega
    rw [recordAll_eq_take _ st hne, List.reverse_cons, List.append_assoc,
      List.take_append_eq_append_take, List.take_of_length_le (by simp [htl]),
      show (50 - tl.reverse.length) = 0 by simp [htl]] at hmem
    simp only [List.take_zero, List.append_nil, List.mem_reverse] at hmem
    exact (List.nodup_cons.mp hnd).1 hmem

/-- Claim C5, witness: recording 51 distinct notifications into an empty
store keeps the newest 50, newest first, without the oldest. -/
theorem C5_witness : ns51.length = 51 ∧ C5Post [] ns51 :=
  ⟨by decide, C5_store_bound [] ns51 (by decide)⟩

/-- `stopHeartbeat` touches only `pending` and `heartbeatTimer`. -/
theorem stopHeartbeat_fields (s : RTState) :
    (stopHeartbeat s).pollingInterval = s.pollingInterval ∧
    (stopHeartbeat s).updateTimer = s.updateTimer ∧
    (stopHeartbeat s).websocket = s.websocket ∧
    (stopHeartbeat s).closeCalls = s.closeCalls ∧
    (stopHeartbeat s).isConnected = s.isConnected := by
  cases hh : s.heartbeatTimer <;> simp [stopHeartbeat, hh]

/-- `stopPollingFallback` touches only `pending` and `pollingInterval`. -/
theorem stopPollingFallback_fields (s : RTState) :
    (stopPollingFallback s).updateTimer = s.updateTimer ∧
    (stopPollingFallback s).websocket = s.websocket ∧
    (stopPollingFallback s).closeCalls = s.closeCalls ∧
    (stopPollingFallback s).isConnected = s.isConnected := by
  cases hp : s.pollingInterval <;> simp [stopPollingFallback, hp]

/-- A registration survives `stopHeartbeat` exactly if its handle is not the
stored heartbeat handle. -/
theorem mem_stopHeartbeat_pending (s : RTState) (x : Nat × TimerKind) :
    x ∈ (stopHeartbeat s).pending ↔
      x ∈ s.pending ∧ ∀ hid, s.heartbeatTimer = some hid → x.1 ≠ hid := by
  cases hh : s.heartbeatTimer <;>
    simp [stopHeartbeat, hh, removeTimer, List.mem_filter]

/-- A registration survives `stopPollingFallback` exactly if its handle is
not the stored polling handle. -/
theorem mem_stopPollingFallback_pending (s : RTState) (x : Nat × TimerKind) :
    x ∈ (stopPollingFallback s).pending ↔
      x ∈ s.pending ∧ ∀ pid, s.pollingInterval = some pid → x.1 ≠ pid := by
  cases hp : s.pollingInterval <;>
    simp [stopPollingFallback, hp, removeTimer, List.mem_filter]

/-- A registration survives `cleanup` exactly if its handle is none of the
three stored handles (heartbeat, polling, flush): those are the only timers
teardown can cancel. -/
theorem cleanup_pending_mem (s : RTState) (x : Nat × TimerKind) :
    x ∈ (cleanup s).pending ↔
      x ∈ s.pending ∧
      (∀ hid, s.heartbeatTimer = some hid → x.1 ≠ hid) ∧
      (∀ pid, s.pollingInterval = some pid → x.1 ≠ pid) ∧
      (∀ tid, s.updateTimer = some tid → x.1 ≠ tid) := by
  have hupd : (stopPollingFallback (stopHeartbeat s)).updateTimer = s.updateTimer := by
    rw [(stopPollingFallback_fields _).1, (stopHeartbeat_fields _).2.1]
  have hpoll : (stopHeartbeat s).pollingInterval = s.pollingInterval :=
    (stopHeartbeat_fields _).1
  have hcl : x ∈ (cleanup s).pending ↔
      (x ∈ (stopPollingFallback (stopHeartbeat s)).pending ∧
        ∀ tid, s.updateTimer = some tid → x.1 ≠ tid) := by
    unfold cleanup
    cases hw : (stopPollingFallback (stopHeartbeat s)).websocket <;>
      cases ht : s.updateTimer <;>
      simp [hw, hupd, ht, removeTimer, List.mem_filter]
  rw [hcl, mem_stopPollingFallback_pending, hpoll, mem_stopHeartbeat_pending]
  tauto

/-- `cleanup` on a client holding a socket records the clean-close request
(code 1000). -/
theorem cleanup_closeCalls_mem (s : RTState) (w : WS) (hw : s.websocket = some w) :
    (1000 : Nat) ∈ (cleanup s).closeCalls := by
  have hws : (stopPollingFallback (stopHeartbeat s)).websocket = some w := by
    rw [(stopPollingFallback_fields _).2.1, (stopHeartbeat_fields _).2.2.1, hw]
  have hupd : (stopPollingFallback (stopHeartbeat s)).updateTimer = s.updateTimer := by
    rw [(stopPollingFallback_fields _).1, (stopHeartbeat_fields _).2.1]
  unfold cleanup
  cases ht : s.updateTimer <;> simp [hws, hupd, ht]

/-- Claim C2 (corrected), amended claim: teardown cancels the heartbeat,
polling and coalescing-flush timers (everything whose handle is stored) and
requests a clean close (code 1000) on any socket, but a pending
backoff-reconnect timer is not cancelled — `scheduleReconnect` never stored
its handle — so it remains scheduled after teardown completes and its
callback still fires (the counterexample shows it then opening a fresh
socket). -/
theorem C2_amended_cleanup (s : RTState) (id : Nat)
    (hr : reconnectAt s.pending id = true)
    (hh : s.heartbeatTimer ≠ some id)
    (hp : s.pollingInterval ≠ some id)
    (ht : s.updateTimer ≠ some id) :
    C2Post s id := by
  refine ⟨?_, ?_, ?_, ?_, ?_⟩
  · obtain ⟨x, hx, hxp⟩ := List.any_eq_true.mp hr
    refine List.any_eq_true.mpr ⟨x, ?_, hxp⟩
    rw [cleanup_pending_mem]
    have hx1 : x.1 = id := by
      have := (Bool.and_eq_true _ _).mp hxp
      exact of_decide_eq_true this.1
    refine ⟨hx, ?_, ?_, ?_⟩
    · intro hid he
      rw [hx1]
      intro e
      exact hh (by rw [he, e])
    · intro pid he
      rw [hx1]
      intro e
      exact hp (by rw [he, e])
    · intro tid he
      rw [hx1]
      intro e
      exact ht (by rw [he, e])
  · intro hid k he hmem
    exact ((cleanup_pending_mem s (hid, k)).mp hmem).2.1 hid he rfl
  · intro tid k he hmem
    exact ((cleanup_pending_mem s (tid, k)).mp hmem).2.2.2 tid he rfl
  · intro pid k he hmem
    exact ((cleanup_pending_mem s (pid, k)).mp hmem).2.2.1 pid he rfl
  · intro w hw
    exact cleanup_closeCalls_mem s w hw

/-- Claim C2, witness: on the concrete pre-teardown state of `c2trace`
(heartbeat 5, flush 6, polling 0 stored; backoff timer 3 pending), `cleanup`
cancels the stored three and leaves the backoff timer pending, recording the
clean-close request. -/
theorem C2_witness :
    (reconnectAt (run (initialState defaultOptions) c2trace).pending 3 = true) ∧
    ((run (initialState defaultOptions) c2trace).heartbeatTimer ≠ some 3) ∧
    ((run (initialState defaultOptions) c2trace).pollingInterval ≠ some 3) ∧
    ((run (initialState defaultOptions) c2trace).updateTimer ≠ some 3) ∧
    C2Post (run (initialState defaultOptions) c2trace) 3 :=
  ⟨by decide, by decide, by decide, by decide,
    C2_amended_cleanup (run (initialState defaultOptions) c2trace) 3
      (by decide) (by decide) (by decide) (by decide)⟩

/-- Once the attempt counter has reached the configured maximum, a close —
clean or not — takes the polling branch of `handleWebSocketClose`. -/
theorem handleWebSocketClose_max (s : RTState) (code : Nat)
    (hmax : s.options.maxReconnectAttempts ≤ s.reconnectAttempts)
    (hhb : s.heartbeatTimer = none) :
    handleWebSocketClose s code =
      startPollingFallback
        (emit { s with isConnected := false } ("disconnected") EmitData.nodata) := by
  have hsh : stopHeartbeat { s with isConnected := false } =
      { s with isConnected := false } := by
    simp [stopHeartbeat, hhb]
  simp only [handleWebSocketClose]
  rw [hsh, if_neg]
  intro hc
  exact absurd hc.2 (Nat.not_lt.mpr hmax)

/-- Claim C7 (corrected), amended claim: once the attempt counter is at the
configured maximum, a non-clean close registers no further
backoff-reconnect timer, leaves the counter unchanged and (re)starts the
polling fallback; the client reaches this retry-free polling regime only
after the (max + 1)-th consecutive failure — on the eleven-failure trace no
backoff timer remains pending. -/
theorem C7_amended_polling_after_max (s : RTState) (code : Nat)
    (hmax : s.options.maxReconnectAttempts ≤ s.reconnectAttempts)
    (hhb : s.heartbeatTimer = none) :
    C7Post s code := by
  unfold C7Post
  rw [handleWebSocketClose_max s code hmax hhb]
  refine ⟨?_, rfl, rfl, by decide, by decide⟩
  show reconnectCount (s.pending ++ [(s.nextId, TimerKind.polling)]) =
    reconnectCount s.pending
  simp [reconnectCount, List.filter_append, reconnectKind]

/-- Claim C7, witness: after the eleventh consecutive failure the counter is
at the maximum and a further non-clean close schedules no retry, only
polling. -/
theorem C7_witness :
    ((run (initialState defaultOptions) c7trace11).options.maxReconnectAttempts ≤
      (run (initialState defaultOptions) c7trace11).reconnectAttempts) ∧
    ((run (initialState defaultOptions) c7trace11).heartbeatTimer = none) ∧
    C7Post (run (initialState defaultOptions) c7trace11) 1006 :=
  ⟨by decide, by decide,
    C7_amended_polling_after_max (run (initialState defaultOptions) c7trace11) 1006
      (by decide) (by decide)⟩

/-- `emit` touches only the delivery/error traces. -/
theorem emit_isConnected (s : RTState) (e : String) (d : EmitData) :
    (emit s e d).isConnected = s.isConnected := rfl

/-- `emit` leaves the socket alone. -/
theorem emit_websocket (s : RTState) (e : String) (d : EmitData) :
    (emit s e d).websocket = s.websocket := rfl

/-- Enqueuing touches neither connectivity flag nor socket. -/
theorem queueUpdate_isConnected (s : RTState) (a : UpdateAction) :
    (queueUpdate s a).isConnected = s.isConnected := by
  cases h : s.updateTimer <;> simp [queueUpdate, h]

/-- Enqueuing leaves the socket alone. -/
theorem queueUpdate_websocket (s : RTState) (a : UpdateAction) :
    (queueUpdate s a).websocket = s.websocket := by
  cases h : s.updateTimer <;> simp [queueUpdate, h]

/-- Notifying touches neither connectivity flag nor socket. -/
theorem showNotification_isConnected (s : RTState) (m ty : String) :
    (showNotification s m ty).isConnected = s.isConnected := rfl

/-- Notifying leaves the socket alone. -/
theorem showNotification_websocket (s : RTState) (m ty : String) :
    (showNotification s m ty).websocket = s.websocket := rfl

/-- The metrics handler touches neither connectivity flag nor socket. -/
theorem handleMetricsUpdate_isConnected (s : RTState) (p : Payload) :
    (handleMetricsUpdate s p).isConnected = s.isConnected := by
  simp [handleMetricsUpdate, emit_isConnected, queueUpdate_isConnected]

/-- The metrics handler leaves the socket alone. -/
theorem handleMetricsUpdate_websocket (s : RTState) (p : Payload) :
    (handleMetricsUpdate s p).websocket = s.websocket := by
  simp [handleMetricsUpdate, emit_websocket, queueUpdate_websocket]

/-- The agent-status handler touches neither connectivity flag nor socket. -/
theorem handleAgentStatusChange_isConnected (s : RTState) (p : Payload) :
    (handleAgentStatusChange s p).isConnected = s.isConnected := by
  simp only [handleAgentStatusChange, emit_isConnected]
  split_ifs <;> simp [showNotification_isConnected]

/-- The agent-status handler leaves the socket alone. -/
theorem handleAgentStatusChange_websocket (s : RTState) (p : Payload) :
    (handleAgentStatusChange s p).websocket = s.websocket := by
  simp only [handleAgentStatusChange, emit_websocket]
  split_ifs <;> simp [showNotification_websocket]

/-- The task-status handler touches neither connectivity flag nor socket. -/
theorem handleTaskStatusChange_isConnected (s : RTState) (p : Payload) :
    (handleTaskStatusChange s p).isConnected = s.isConnected := by
  simp only [handleTaskStatusChange, emit_isConnected]
  split_ifs <;> simp [showNotification_isConnected]

/-- The task-status handler leaves the socket alone. -/
theorem handleTaskStatusChange_websocket (s : RTState) (p : Payload) :
    (handleTaskStatusChange s p).websocket = s.websocket := by
  simp only [handleTaskStatusChange, emit_websocket]
  split_ifs <;> simp [showNotification_websocket]

/-- The alert handler touches neither connectivity flag nor socket. -/
theorem handleSystemAlert_isConnected (s : RTState) (p : Payload) :
    (handleSystemAlert s p).isConnected = s.isConnected := rfl

/-- The alert handler leaves the socket alone. -/
theorem handleSystemAlert_websocket (s : RTState) (p : Payload) :
    (handleSystemAlert s p).websocket = s.websocket := rfl

/-- The pool-scaling handler touches neither connectivity flag nor socket. -/
theorem handlePoolScaling_isConnected (s : RTState) (p : Payload) :
    (handlePoolScaling s p).isConnected = s.isConnected := by
  simp [handlePoolScaling, emit_isConnected, queueUpdate_isConnected,
    showNotification_isConnected]

/-- The pool-scaling handler leaves the socket alone. -/
theorem handlePoolScaling_websocket (s : RTState) (p : Payload) :
    (handlePoolScaling s p).websocket = s.websocket := by
  simp [handlePoolScaling, emit_websocket, queueUpdate_websocket,
    showNotification_websocket]

/-- Dispatching an inbound frame touches neither connectivity flag nor
socket. -/
theorem processRealTimeUpdate_isConnected (s : RTState) (f : Frame) :
    (processRealTimeUpdate s f).isConnected = s.isConnected := by
  simp only [processRealTimeUpdate, emit_isConnected]
  split_ifs <;>
    simp [handleMetricsUpdate_isConnected, handleAgentStatusChange_isConnected,
      handleTaskStatusChange_isConnected, handleSystemAlert_isConnected,
      handlePoolScaling_isConnected]

/-- Dispatching an inbound frame leaves the socket alone. -/
theorem processRealTimeUpdate_websocket (s : RTState) (f : Frame) :
    (processRealTimeUpdate s f).websocket = s.websocket := by
  simp only [processRealTimeUpdate, emit_websocket]
  split_ifs <;>
    simp [handleMetricsUpdate_websocket, handleAgentStatusChange_websocket,
      handleTaskStatusChange_websocket, handleSystemAlert_websocket,
      handlePoolScaling_websocket]

/-- `connect` never flips the connectivity flag (only the open event does). -/
theorem connect_isConnected (s : RTState) :
    (connect s).isConnected = s.isConnected := by
  cases h : s.websocket
  · simp [connect, h, connectFresh]
  · simp only [connect, h]
    split_ifs <;> simp [connectFresh]

/-- `connect` never discards a socket: if one was held, one is held after. -/
theorem connect_websocket_isSome (s : RTState) (h : s.websocket.isSome = true) :
    (connect s).websocket.isSome = true := by
  cases hw : s.websocket
  · rw [hw] at h
    simp at h
  · simp only [connect, hw]
    split_ifs <;> simp [connectFresh, hw]

/-- A close handler always leaves the client marked disconnected. -/
theorem handleWebSocketClose_isConnected (s : RTState) (code : Nat) :
    (handleWebSocketClose s code).isConnected = false := by
  simp only [handleWebSocketClose]
  split_ifs
  · show (emit (stopHeartbeat { s with isConnected := false })
        ("disconnected") EmitData.nodata).isConnected = false
    rw [emit_isConnected, (stopHeartbeat_fields _).2.2.2.2]
  · show (emit (stopHeartbeat { s with isConnected := false })
        ("disconnected") EmitData.nodata).isConnected = false
    rw [emit_isConnected, (stopHeartbeat_fields _).2.2.2.2]

/-- Teardown never flips the connectivity flag (the close event it provokes
does, later). -/
theorem cleanup_isConnected (s : RTState) :
    (cleanup s).isConnected = s.isConnected := by
  have hupd : (stopPollingFallback (stopHeartbeat s)).updateTimer = s.updateTimer := by
    rw [(stopPollingFallback_fields _).1, (stopHeartbeat_fields _).2.1]
  have hconn : (stopPollingFallback (stopHeartbeat s)).isConnected = s.isConnected := by
    rw [(stopPollingFallback_fields _).2.2.2, (stopHeartbeat_fields _).2.2.2.2]
  unfold cleanup
  cases hw : (stopPollingFallback (stopHeartbeat s)).websocket <;>
    cases ht : s.updateTimer <;> simp [hw, hupd, ht, hconn]

/-- Teardown never discards the socket object (it only closes it). -/
theorem cleanup_websocket_isSome (s : RTState) (h : s.websocket.isSome = true) :
    (cleanup s).websocket.isSome = true := by
  have hupd : (stopPollingFallback (stopHeartbeat s)).updateTimer = s.updateTimer := by
    rw [(stopPollingFallback_fields _).1, (stopHeartbeat_fields _).2.1]
  cases hw0 : s.websocket with
  | none =>
      rw [hw0] at h
      simp at h
  | some w =>
      have hws : (stopPollingFallback (stopHeartbeat s)).websocket = some w := by
        rw [(stopPollingFallback_fields _).2.1, (stopHeartbeat_fields _).2.2.1, hw0]
      unfold cleanup
      cases ht : s.updateTimer <;> simp [hws, hupd, ht]

/-- One event step preserves the connectivity invariant: whenever the
client is marked connected, it holds a socket object. -/
theorem step_preserves_conn_inv (s : RTState) (e : Event)
    (ih : s.isConnected = true → s.websocket.isSome = true) :
    (step s e).isConnected = true → (step s e).websocket.isSome = true := by
  cases e with
  | evConnect =>
      intro hc
      simp only [step] at hc ⊢
      rw [connect_isConnected] at hc
      exact connect_websocket_isSome _ (ih hc)
  | evOpen =>
      intro hc
      rcases Option.eq_none_or_eq_some s.websocket with hw | ⟨w, hw⟩
      · simp only [step, hw] at hc ⊢
        exact hw ▸ ih hc
      · simp only [step, hw] at hc ⊢
        by_cases hrs : w.readyState = ReadyState.connecting
        · rw [if_pos hrs] at hc ⊢
          rfl
        · rw [if_neg hrs] at hc ⊢
          exact hw ▸ ih hc
  | evClose code =>
      intro hc
      rcases Option.eq_none_or_eq_some s.websocket with hw | ⟨w, hw⟩
      · simp only [step, hw] at hc ⊢
        exact hw ▸ ih hc
      · simp only [step, hw] at hc ⊢
        by_cases hrs : w.readyState ≠ ReadyState.closed
        · rw [if_pos hrs] at hc
          rw [handleWebSocketClose_isConnected] at hc
          exact absurd hc (by simp)
        · rw [if_neg hrs] at hc ⊢
          exact hw ▸ ih hc
  | evMessage f =>
      intro hc
      rcases Option.eq_none_or_eq_some s.websocket with hw | ⟨w, hw⟩
      · simp only [step, hw] at hc ⊢
        exact hw ▸ ih hc
      · simp only [step, hw] at hc ⊢
        by_cases hrs : w.readyState = ReadyState.opened
        · rw [if_pos hrs] at hc ⊢
          rw [processRealTimeUpdate_isConnected] at hc
          rw [processRealTimeUpdate_websocket]
          exact hw ▸ ih hc
        · rw [if_neg hrs] at hc ⊢
          exact hw ▸ ih hc
  | evFlushFire id =>
      intro hc
      simp only [step] at hc ⊢
      by_cases hm : (id, TimerKind.flush) ∈ s.pending
      · rw [if_pos hm] at hc ⊢
        exact ih hc
      · rw [if_neg hm] at hc ⊢
        exact ih hc
  | evHeartbeatTick id =>
      intro hc
      simp only [step] at hc ⊢
      by_cases hm : (id, TimerKind.heartbeat) ∈ s.pending
      · rw [if_pos hm] at hc ⊢
        by_cases hcw : s.isConnected = true ∧
            s.websocket = some { readyState := ReadyState.opened }
        · rw [if_pos hcw] at hc ⊢
          exact ih hc
        · rw [if_neg hcw] at hc ⊢
          exact ih hc
      · rw [if_neg hm] at hc ⊢
        exact ih hc
  | evPollTick id ok body =>
      intro hc
      simp only [step] at hc ⊢
      by_cases hm : (id, TimerKind.polling) ∈ s.pending
      · rw [if_pos hm] at hc ⊢
        by_cases hok : ok = true
        · rw [if_pos hok] at hc ⊢
          rw [handleMetricsUpdate_isConnected] at hc
          rw [handleMetricsUpdate_websocket]
          exact ih hc
        · rw [if_neg hok] at hc ⊢
          exact ih hc
      · rw [if_neg hm] at hc ⊢
        exact ih hc
  | evReconnectFire id =>
      intro hc
      rcases Option.eq_none_or_eq_some (s.pending.find? (fun t => decide (t.1 = id)))
        with hf | ⟨t, hf⟩
      · simp only [step, hf] at hc ⊢
        exact ih hc
      · simp only [step, hf] at hc ⊢
        obtain ⟨tid, k⟩ := t
        cases k <;> dsimp only at hc ⊢
        case reconnect d =>
          by_cases hcon : s.isConnected = true
          · rw [if_pos hcon] at hc ⊢
            exact ih hc
          · rw [if_neg hcon] at hc
            rw [connect_isConnected] at hc
            exact absurd hc hcon
        all_goals exact ih hc
  | evConnTimeoutFire id =>
      intro hc
      rcases Option.eq_none_or_eq_some (s.pending.find? (fun t => decide (t.1 = id)))
        with hf | ⟨t, hf⟩
      · simp only [step, hf] at hc ⊢
        exact ih hc
      · simp only [step, hf] at hc ⊢
        obtain ⟨tid, k⟩ := t
        cases k <;> dsimp only at hc ⊢
        case connTimeout =>
          rcases Option.eq_none_or_eq_some s.websocket with hw | ⟨w, hw⟩
          · simp only [hw] at hc ⊢
            exact hw ▸ ih hc
          · simp only [hw] at hc ⊢
            by_cases hrs : w.readyState ≠ ReadyState.opened
            · rw [if_pos hrs] at hc ⊢
              rfl
            · rw [if_neg hrs] at hc ⊢
              exact hw ▸ ih hc
        all_goals exact ih hc
  | evCleanup =>
      intro hc
      simp only [step] at hc ⊢
      rw [cleanup_isConnected] at hc
      exact cleanup_websocket_isSome _ (ih hc)
  | evOn ev cb =>
      intro hc
      exact ih hc

/-- Invariant of every reachable client state: whenever the client is marked
connected, it holds a socket object — so the short-circuited dereference in
`send` can never hit null. -/
theorem reachable_websocket_isSome {s : RTState} (h : Reachable s) :
    s.isConnected = true → s.websocket.isSome = true := by
  induction h with
  | init opts =>
      intro hc
      simp [initialState, startPollingFallback, freshState] at hc
  | @next s e hprev ih => exact step_preserves_conn_inv s e ih

/-- Claim C9 (confirmed): for every frame and every reachable client state,
`send` never raises; it transmits exactly when the client is connected with
an open channel, and in every other state it is a silent no-op that sends
nothing and changes no state. -/
theorem C9_send_connected_only (s : RTState) (f : Frame) (h : Reachable s) :
    C9Post s f := by
  cases hc : s.isConnected with
  | false =>
      refine ⟨s, by simp [send, hc], Or.inr ⟨?_, rfl⟩⟩
      intro hcc
      rw [hc] at hcc
      exact absurd hcc.1 (by simp)
  | true =>
      have hws := reachable_websocket_isSome h hc
      obtain ⟨w, hw⟩ := Option.isSome_iff_exists.mp hws
      obtain ⟨rs⟩ := w
      by_cases hrs : rs = ReadyState.opened
      · subst hrs
        refine ⟨{ s with sentFrames := s.sentFrames ++ [f] }, ?_, Or.inl ⟨hc, hw, rfl⟩⟩
        simp [send, hc, hw]
      · refine ⟨s, ?_, Or.inr ⟨?_, rfl⟩⟩
        · simp [send, hc, hw, hrs]
        · intro hcc
          rw [hw] at hcc
          have : rs = ReadyState.opened := by
            have h2 := hcc.2
            injection h2 with h3
            injection h3
          exact hrs this

/-- Claim C9, witness: on the freshly initialised client (reachable,
disconnected), `send` returns without transmitting and without changing the
state. -/
theorem C9_witness :
    Reachable (initialState defaultOptions) ∧
    C9Post (initialState defaultOptions) pingFrame :=
  ⟨Reachable.init defaultOptions,
    C9_send_connected_only (initialState defaultOptions) pingFrame
      (Reachable.init defaultOptions)⟩

end RT
